import Mathlib

/-!
Verification of the Cantoo Scribe embedding API (src/cantooApi.js, the
current version of the file: the one declaring the `logout` event type and
the promise-returning `destroy`).

The JavaScript class `CantooAPI` is shallowly embedded as pure functions
over an explicit system state.  JavaScript values appearing as URL
parameters are modelled by `JVal` (string / boolean / undefined), inbound
`postMessage` payloads by `JSData`, and the DOM / promise side effects by
fields of `Conn` and `Sys`:

* `Conn.iframeAttached` — whether the iframe element is currently a child
  of the host container (`domElement.appendChild` / `removeChild`); a
  detached iframe has a `null` `contentWindow`.
* `Conn.listenerAttached` — whether `postMessageListener` is currently
  registered on `window` (`window.addEventListener('message', ...)`).
* `Sys.connectP`, `Sys.loadP`, `Sys.destroyP` — the promise cells created
  by `connect`, `loadDocument` and `destroy`; a settled promise ignores
  later `resolve` / `reject` calls, exactly as in JavaScript.
* `Sys.invoked` — the trace of callback invocations, in invocation order.
* `Sys.outbox` — messages posted into the iframe (`postMessage`).
* `Sys.doDestroyRuns` — how many times `_doDestroy` ran to completion.

Exceptions are modelled by returning `Option JsError` next to the state:
`none` means the JavaScript code returned normally.  `domNotFound` is the
DOM `NotFoundError` that `Node.removeChild` raises when its argument is
not a child of the node (per the DOM standard).
-/

/-- Errors raised or used as promise rejection reasons by the source.
`connectTimeout` is the `Error` built from the message about the iframe
taking more than 5 minutes to open, `loadTimeout` the one about loading
taking more than 60 s, `destroyTimeout` the one about the iframe not
responding within 10 s, and `noActiveConnection` the rejection raised by
`destroy` when the iframe has no `contentWindow`. -/
inductive JsError where
  | invalidEnvironment (env : String)
  | connectTimeout
  | loadTimeout
  | destroyTimeout
  | noActiveConnection
  | domNotFound
deriving DecidableEq, Repr

/-- A JavaScript value usable as a URL query parameter: a string, a
boolean, or `undefined`. -/
inductive JVal where
  | str (s : String)
  | bool (b : Bool)
  | undefVal
deriving DecidableEq, Repr

/-- JavaScript truthiness restricted to `JVal`: the empty string, `false`
and `undefined` are falsy; every other `JVal` is truthy. -/
def JVal.truthy : JVal → Bool
  | .str s => !s.isEmpty
  | .bool b => b
  | .undefVal => false

/-- String coercion of a `JVal`, as performed by a JS template literal.
Only truthy non-`true` values (that is, nonempty strings) ever reach this
coercion in `buildUrl`. -/
def JVal.toStr : JVal → String
  | .str s => s
  | .bool b => if b then "true" else "false"
  | .undefVal => "undefined"

/-- Map `Option String` (a possibly-undefined JS string field) to `JVal`. -/
def jv : Option String → JVal
  | some s => .str s
  | none => .undefVal

/-- The host table of `src/cantooApi.js` (the module-level `hosts`
constant). -/
def hosts : List (String × String) :=
  [("develop", "https://develop.cantoo.fr"),
   ("preprod", "https://preprod.cantoo.fr"),
   ("prod", "https://cantoo.fr")]

/-- One step of the `Object.entries(props).map(...)` arrow inside
`buildUrl`: a value `=== true` serializes as the bare key, any other
truthy value as `key=value`, and everything else is dropped by the
subsequent `.filter`. -/
def serializeEntry : String × JVal → Option String
  | (key, v) =>
    if v = .bool true then some key
    else if v.truthy then some (key ++ "=" ++ v.toStr)
    else none

/-- The module-level `buildUrl` function: resolves `env` against `hosts`
(raising on an unknown environment), then serializes the remaining
properties, in their object insertion order, joined with ampersands. -/
def buildUrl (env : String) (props : List (String × JVal)) :
    Except JsError String :=
  match hosts.lookup env with
  | none => .error (.invalidEnvironment env)
  | some host =>
      .ok (host ++ "/api/embed?" ++
        String.intercalate "&" (props.filterMap serializeEntry))

/-- The connection states of `CantooAPI.state`. -/
inductive CState where
  | launching
  | ready
  | completed
  | destroyed
deriving DecidableEq, Repr

/-- The four event kinds of the callback registry. -/
inductive EvKind where
  | ready
  | completed
  | destroyed
  | logout
deriving DecidableEq, Repr

/-- Identity of a callback stored in the registry.  `user n` is an
arbitrary client-registered callback; the other three constructors are
the one-shot closures created inside `connect`, `loadDocument` and
`destroy`, whose effects are interpreted by `runCB` below. -/
inductive CB where
  | user (n : Nat)
  | connectReady
  | loadReady
  | onDestroy
deriving DecidableEq, Repr

/-- The `callbacks` field of `CantooAPI`: one ordered array per event
kind. -/
structure Callbacks where
  ready : List CB
  completed : List CB
  destroyed : List CB
  logout : List CB
deriving DecidableEq, Repr

/-- The freshly initialized (and the cleared) registry. -/
def Callbacks.empty : Callbacks := ⟨[], [], [], []⟩

/-- Read the array for one event kind. -/
def Callbacks.get (cbs : Callbacks) : EvKind → List CB
  | .ready => cbs.ready
  | .completed => cbs.completed
  | .destroyed => cbs.destroyed
  | .logout => cbs.logout

/-- The method `addEventListener`: pushes the listener at the end of the
array for its event kind. -/
def Callbacks.add (cbs : Callbacks) (k : EvKind) (cb : CB) : Callbacks :=
  match k with
  | .ready => { cbs with ready := cbs.ready ++ [cb] }
  | .completed => { cbs with completed := cbs.completed ++ [cb] }
  | .destroyed => { cbs with destroyed := cbs.destroyed ++ [cb] }
  | .logout => { cbs with logout := cbs.logout ++ [cb] }

/-- The method `removeEventListener`: replaces the array for the event
kind by its filtration, keeping exactly the callbacks that are not
reference-equal to the argument (so every occurrence is removed). -/
def Callbacks.remove (cbs : Callbacks) (k : EvKind) (cb : CB) : Callbacks :=
  match k with
  | .ready => { cbs with ready := cbs.ready.filter (· ≠ cb) }
  | .completed => { cbs with completed := cbs.completed.filter (· ≠ cb) }
  | .destroyed => { cbs with destroyed := cbs.destroyed.filter (· ≠ cb) }
  | .logout => { cbs with logout := cbs.logout.filter (· ≠ cb) }

/-- The data of an inbound `message` event.  `obj` is a JS object with
optional `type`, `userId`, `fileId` and `title` fields; the other
constructors are non-object values.  Property access through optional
chaining on any non-object value yields `undefined` without raising. -/
inductive JSData where
  | obj (type userId fileId title : Option String)
  | nullV
  | undefV
  | strV (s : String)
  | numV (n : Int)
deriving DecidableEq, Repr

/-- The expression `event.data?.type`: the `type` field of an object,
`undefined` (here `none`) for every other value. -/
def JSData.typeOf : JSData → Option String
  | .obj t _ _ _ => t
  | _ => none

/-- The expression `event.fileId` as read by the `ready` callback of
`connect`. -/
def JSData.fileIdOf : JSData → Option String
  | .obj _ _ f _ => f
  | _ => none

/-- A browser `MessageEvent` as seen by the listener: the payload plus the
origin and source window of the sender.  The source listener reads only
`event.data`. -/
structure MessageEvent where
  data : JSData
  origin : String
  source : Nat
deriving DecidableEq, Repr

/-- The persistent fields of a `CantooAPI` instance, together with the two
DOM facts the claims are about (whether the iframe is attached to the
container and whether the window message listener is registered) and the
current `iframe.src`. -/
structure Conn where
  state : CState
  callbacks : Callbacks
  env : String
  idEnt : String
  uai : String
  userId : String
  readOnly : Bool
  fileId : Option String
  title : Option String
  template : Option String
  iframeSrc : String
  iframeAttached : Bool
  listenerAttached : Bool
deriving DecidableEq, Repr

/-- The method `_buildUrl`: calls `buildUrl` with the object literal
whose insertion order is `env, idEnt, readOnly, uai, userId, fileId,
title, template`; `buildUrl` destructures `env` away, so the remaining
properties are serialized in that order. -/
def Conn.buildUrlOf (c : Conn) : Except JsError String :=
  buildUrl c.env
    [("idEnt", .str c.idEnt),
     ("readOnly", .bool c.readOnly),
     ("uai", .str c.uai),
     ("userId", .str c.userId),
     ("fileId", jv c.fileId),
     ("title", jv c.title),
     ("template", jv c.template)]

/-- A JS promise cell: pending, resolved, or rejected with a reason. -/
inductive PromiseSt where
  | pending
  | resolved
  | rejected (e : JsError)
deriving DecidableEq, Repr

/-- Resolving a promise: a no-op unless the promise is still pending. -/
def PromiseSt.resolve : PromiseSt → PromiseSt
  | .pending => .resolved
  | s => s

/-- Rejecting a promise: a no-op unless the promise is still pending. -/
def PromiseSt.reject (p : PromiseSt) (e : JsError) : PromiseSt :=
  match p with
  | .pending => .rejected e
  | s => s

/-- The whole system state: the connection object, the three promise
cells, the teardown counter, the callback invocation trace, and the
messages posted into the iframe. -/
structure Sys where
  conn : Conn
  connectP : PromiseSt
  loadP : PromiseSt
  destroyP : PromiseSt
  doDestroyRuns : Nat
  invoked : List (CB × JSData)
  outbox : List String
deriving DecidableEq, Repr

/-- A system in which no handshake promise has been created yet. -/
def initSys (c : Conn) : Sys :=
  ⟨c, .pending, .pending, .pending, 0, [], []⟩

/-- Timeout of the `connect` handshake, in milliseconds (line 597:
`5 * 60000`). -/
def connectTimeoutMs : Nat := 5 * 60000

/-- Timeout of the `loadDocument` handshake, in milliseconds (line 638:
`60000`). -/
def loadTimeoutMs : Nat := 60000

/-- Timeout of the `destroy` handshake, in milliseconds (line 661:
`10000`). -/
def destroyTimeoutMs : Nat := 10000

/-- Invoking one stored callback with a payload.  A `user` callback is
external client code, modelled as pure observation (it is appended to the
invocation trace).  The three closure callbacks perform exactly what the
source closures do:

* `connectReady` (inside `connect`): `removeEventListener` of itself on
  `ready`, assignment `api.fileId = event.fileId`, then `resolve(api)`;
* `loadReady` (inside `loadDocument`): `removeEventListener` of itself on
  `ready`, then `resolve()`;
* `onDestroy` (inside `destroy`): `resolve()`, then `removeEventListener`
  of itself on `destroyed`. -/
def runCB (s : Sys) (cb : CB) (data : JSData) : Sys :=
  match cb with
  | .user _ => { s with invoked := s.invoked ++ [(cb, data)] }
  | .connectReady =>
      { s with
        conn := { s.conn with
          callbacks := s.conn.callbacks.remove .ready .connectReady,
          fileId := data.fileIdOf },
        connectP := s.connectP.resolve,
        invoked := s.invoked ++ [(cb, data)] }
  | .loadReady =>
      { s with
        conn := { s.conn with
          callbacks := s.conn.callbacks.remove .ready .loadReady },
        loadP := s.loadP.resolve,
        invoked := s.invoked ++ [(cb, data)] }
  | .onDestroy =>
      { s with
        conn := { s.conn with
          callbacks := s.conn.callbacks.remove .destroyed .onDestroy },
        destroyP := s.destroyP.resolve,
        invoked := s.invoked ++ [(cb, data)] }

/-- The statement `this.callbacks[type].forEach(listener => listener(data))`:
`forEach` iterates over the array object read at call time, so callbacks
run over that snapshot even though `removeEventListener` may reassign the
registry field mid-iteration. -/
def dispatch (s : Sys) (k : EvKind) (data : JSData) : Sys :=
  (s.conn.callbacks.get k).foldl (fun acc cb => runCB acc cb data) s

/-- The private method `_doDestroy`, in source order:
`window.removeEventListener` of the message listener; then
`domElement.removeChild(this.iframe)` — which, per the DOM standard,
raises `NotFoundError` when the iframe is not currently a child of the
container; then `setState('destroyed')`; then invocation of every
`destroyed` callback; then reassignment of `callbacks` to four empty
arrays.  The returned `Option JsError` is the exception raised, if any;
state mutations made before the raise persist. -/
def doDestroy (s : Sys) : Sys × Option JsError :=
  let s1 := { s with conn := { s.conn with listenerAttached := false } }
  if s1.conn.iframeAttached then
    let s2 := { s1 with conn := { s1.conn with
      iframeAttached := false, state := .destroyed } }
    let snapshot := s2.conn.callbacks.destroyed
    let s3 := snapshot.foldl (fun acc cb => runCB acc cb .undefV) s2
    ({ s3 with
       conn := { s3.conn with callbacks := Callbacks.empty },
       doDestroyRuns := s3.doDestroyRuns + 1 }, none)
  else
    (s1, some .domNotFound)

/-- The closure `postMessageListener` installed by the constructor: read
`event.data?.type`; if it is one of the three recognized strings, call
`setState(type)` and then either `_doDestroy()` (for `destroyed`) or the
`forEach` dispatch over the callbacks of that kind; otherwise return
without any effect. -/
def postMessageListener (s : Sys) (event : MessageEvent) :
    Sys × Option JsError :=
  match event.data.typeOf with
  | some "ready" =>
      (dispatch { s with conn := { s.conn with state := .ready } }
        .ready event.data, none)
  | some "completed" =>
      (dispatch { s with conn := { s.conn with state := .completed } }
        .completed event.data, none)
  | some "destroyed" =>
      doDestroy { s with conn := { s.conn with state := .destroyed } }
  | _ => (s, none)

/-- Delivery of a window `message` event: the listener body runs only
while it is registered on `window`. -/
def deliverMessage (s : Sys) (event : MessageEvent) :
    Sys × Option JsError :=
  if s.conn.listenerAttached then postMessageListener s event
  else (s, none)

/-- The connection parameters accepted by the constructor (the opaque
`domElement` container is represented by `Conn.iframeAttached`). -/
structure Config where
  env : String
  idEnt : String
  uai : String
  userId : String
  readOnly : Bool
  fileId : Option String
  title : Option String
  template : Option String
deriving DecidableEq, Repr

/-- The `CantooAPI` constructor: field initialization (`state` starts at
`launching`, the registry at four empty arrays), then
`this.iframe.src = this._buildUrl()` — which raises on an invalid
environment before the iframe is appended, so no iframe is ever mounted
in that case — then `appendChild` and
`window.addEventListener('message', ...)`. -/
def newCantooAPI (cfg : Config) : Except JsError Conn :=
  let c0 : Conn :=
    { state := .launching, callbacks := Callbacks.empty,
      env := cfg.env, idEnt := cfg.idEnt, uai := cfg.uai,
      userId := cfg.userId, readOnly := cfg.readOnly,
      fileId := cfg.fileId, title := cfg.title,
      template := cfg.template, iframeSrc := "",
      iframeAttached := false, listenerAttached := false }
  match c0.buildUrlOf with
  | .error e => .error e
  | .ok url =>
      .ok { c0 with iframeSrc := url,
                    iframeAttached := true, listenerAttached := true }

/-- The synchronous part of `CantooAPI.connect`: construct the instance,
then run the promise executor, which registers the one-shot `ready`
callback and arms the 5-minute timer. -/
def connectStart (cfg : Config) : Except JsError Sys :=
  match newCantooAPI cfg with
  | .error e => .error e
  | .ok c =>
      .ok { initSys c with
        conn := { c with callbacks := c.callbacks.add .ready .connectReady } }

/-- The synchronous part of the `destroy` promise executor: when the
iframe has no `contentWindow` (it is not attached to the document), reject
immediately; otherwise register the one-shot `destroyed` callback, post
`close` into the iframe, and arm the 10-second timer. -/
def destroyStart (s : Sys) : Sys :=
  if s.conn.iframeAttached then
    { s with
      conn := { s.conn with
        callbacks := s.conn.callbacks.add .destroyed .onDestroy },
      outbox := s.outbox ++ ["close"] }
  else
    { s with destroyP := s.destroyP.reject .noActiveConnection }

/-- The rejection handler chained onto the `destroy` promise:
`this._doDestroy(); throw err`.  When `_doDestroy` itself raises (the
iframe was already detached), the promise returned by `destroy` rejects
with that raised error instead. -/
def destroyCatch (s : Sys) : Sys :=
  match doDestroy s with
  | (s1, none) => s1
  | (s1, some e) => { s1 with destroyP := .rejected e }

/-- Firing of the 10-second `destroy` timer: its callback calls `reject`;
if the promise was still pending this settles it and the chained
rejection handler runs, otherwise the late `reject` is a no-op and the
handler never runs. -/
def fireDestroyTimer (s : Sys) : Sys :=
  if s.destroyP = .pending then
    destroyCatch { s with destroyP := .rejected .destroyTimeout }
  else s

/-- The rejection handler chained onto the `connect` promise:
`api.destroy(); throw err`.  `destroy()` is called but not awaited, so
only its synchronous executor part runs before the rejection propagates
to the caller of `connect`. -/
def connectCatch (s : Sys) : Sys :=
  destroyStart s

/-- Firing of the 5-minute `connect` timer: its callback only calls
`reject`; if that settles the promise, the chained rejection handler
runs. -/
def fireConnectTimer (s : Sys) : Sys :=
  if s.connectP = .pending then
    connectCatch { s with connectP := .rejected .connectTimeout }
  else s

/-- The synchronous part of `loadDocument(fileId, readOnly)`: assign
`fileId`, clear `title` and `template`, set `readOnly := !!readOnly`,
reassign `iframe.src = this._buildUrl()` (which can raise only on an
invalid environment), then run the promise executor, which registers the
one-shot `ready` callback and arms the 60-second timer. -/
def loadDocumentStart (s : Sys) (fileId : String) (readOnly : Option Bool) :
    Except JsError Sys :=
  let c1 := { s.conn with
    fileId := some fileId, title := none,
    readOnly := readOnly.getD false, template := none }
  match c1.buildUrlOf with
  | .error e => .error e
  | .ok url =>
      .ok { s with conn := { c1 with
        iframeSrc := url,
        callbacks := c1.callbacks.add .ready .loadReady } }

/-- The rejection handler chained onto the `loadDocument` promise:
`this.destroy(); throw err` — again `destroy()` is initiated, not
awaited. -/
def loadCatch (s : Sys) : Sys :=
  destroyStart s

/-- Firing of the 60-second `loadDocument` timer: its callback calls
`reject` and then always removes the one-shot `ready` callback; the
chained rejection handler runs only if the `reject` settled the
promise. -/
def fireLoadTimer (s : Sys) : Sys :=
  let wasPending := s.loadP = .pending
  let s1 := { s with
    loadP := s.loadP.reject .loadTimeout,
    conn := { s.conn with
      callbacks := s.conn.callbacks.remove .ready .loadReady } }
  if wasPending then loadCatch s1 else s1

/-- The acknowledgment the embedded application sends in response to the
`close` request. -/
def destroyedAckEvent : MessageEvent :=
  ⟨.obj (some "destroyed") none none none, "https://develop.cantoo.fr", 0⟩

/-- Graceful `destroy` path: call `destroy()`, receive the
`{type:"destroyed"}` acknowledgment, then let the 10-second timer fire
(late, on a settled promise). -/
def destroyAckRun (c : Conn) : Sys × Option JsError :=
  deliverMessage (destroyStart (initSys c)) destroyedAckEvent

/-- Final state of the graceful `destroy` path. -/
def destroyAckScenario (c : Conn) : Sys :=
  fireDestroyTimer (destroyAckRun c).1

/-- Timeout `destroy` path: call `destroy()`, receive no acknowledgment,
and let the 10-second timer fire. -/
def destroyTimeoutScenario (c : Conn) : Sys :=
  fireDestroyTimer (destroyStart (initSys c))

/-- The system state at the instant the `ConnectTimeout` rejection of
`connect` propagates to the caller: the 5-minute timer has fired and the
rejection handler has run (starting, but not awaiting, `destroy()`). -/
def connectTimeoutRun (cfg : Config) : Except JsError Sys :=
  (connectStart cfg).map fireConnectTimer

/-- The configuration of the scenario in the specification: develop
environment, idEnt 1, uai 2, userId 10, fileId 10, readOnly true. -/
def cfgC6 : Config :=
  ⟨"develop", "1", "2", "10", true, some "10", none, none⟩

/-- The iframe src the specification scenario claims. -/
def claimedC6Url : String :=
  "https://develop.cantoo.fr/api/embed?idEnt=1&uai=2&userId=10&fileId=10&readOnly"

/-- The iframe src the source actually produces for `cfgC6`: the object
literal of `_buildUrl` lists `readOnly` right after `idEnt`, so the bare
flag appears second, not last. -/
def actualC6Url : String :=
  "https://develop.cantoo.fr/api/embed?idEnt=1&readOnly&uai=2&userId=10&fileId=10"

/-- The `ready` acknowledgment of the specification scenario. -/
def readyEventC6 : MessageEvent :=
  ⟨.obj (some "ready") (some "10") (some "10") none,
   "https://develop.cantoo.fr", 1⟩

/-- A live connection in state `ready`, as in the `loadDocument`
scenario of the specification. -/
def connReady : Conn :=
  { state := .ready, callbacks := Callbacks.empty, env := "develop",
    idEnt := "1", uai := "2", userId := "10", readOnly := true,
    fileId := some "10", title := none, template := none,
    iframeSrc := actualC6Url, iframeAttached := true,
    listenerAttached := true }

/-- A live connection in state `completed` holding one client `logout`
subscriber. -/
def connCompleted : Conn :=
  { connReady with
    state := .completed
    callbacks := { Callbacks.empty with logout := [.user 0] } }

/-- An inbound `{type:"logout", userId:"u1"}` message, sent from an
arbitrary window. -/
def logoutEvent : MessageEvent :=
  ⟨.obj (some "logout") (some "u1") none none, "https://cantoo.fr", 7⟩

/-- A message event whose data is `null`. -/
def nullDataEvent : MessageEvent :=
  ⟨.nullV, "https://example.com", 3⟩

/-- The query-serialization rule as the amended specification sentence
states it, written from those words for comparison with the source-side
`serializeEntry`: a parameter whose value is the boolean `true` appears
as a bare flag; a defined, non-false, non-empty parameter appears as
`key=value`; `undefined`, `false` and empty-string values are omitted. -/
def specSerializeEntry : String × JVal → Option String
  | (key, .bool true) => some key
  | (key, .str s) => if s = "" then none else some (key ++ "=" ++ s)
  | (_, .bool false) => none
  | (_, .undefVal) => none

/-- A message with the same `destroyed` payload as `destroyedAckEvent`
but sent from a different origin and source window. -/
def destroyedSpoofEvent : MessageEvent :=
  ⟨.obj (some "destroyed") none none none, "https://attacker.example", 99⟩

theorem runCB_invoked (s : Sys) (cb : CB) (d : JSData) :
    (runCB s cb d).invoked = s.invoked ++ [(cb, d)] := by
  cases cb <;> rfl

theorem runCB_state (s : Sys) (cb : CB) (d : JSData) :
    (runCB s cb d).conn.state = s.conn.state := by
  cases cb <;> rfl

theorem runCB_iframe (s : Sys) (cb : CB) (d : JSData) :
    (runCB s cb d).conn.iframeAttached = s.conn.iframeAttached := by
  cases cb <;> rfl

theorem runCB_listenerAtt (s : Sys) (cb : CB) (d : JSData) :
    (runCB s cb d).conn.listenerAttached = s.conn.listenerAttached := by
  cases cb <;> rfl

theorem runCB_runs (s : Sys) (cb : CB) (d : JSData) :
    (runCB s cb d).doDestroyRuns = s.doDestroyRuns := by
  cases cb <;> rfl

theorem runCB_destroyP_rejected (s : Sys) (cb : CB) (d : JSData) (e : JsError)
    (h : s.destroyP = .rejected e) : (runCB s cb d).destroyP = .rejected e := by
  cases cb <;> simp [runCB, h, PromiseSt.resolve]

theorem runCB_destroyP_nr (s : Sys) (cb : CB) (d : JSData)
    (h : s.destroyP = .pending ∨ s.destroyP = .resolved) :
    (runCB s cb d).destroyP = .pending ∨ (runCB s cb d).destroyP = .resolved := by
  cases cb <;> rcases h with h | h <;> simp [runCB, h, PromiseSt.resolve]

theorem foldl_runCB_preserve {α : Type} (f : Sys → α) (d : JSData)
    (hf : ∀ (s : Sys) (cb : CB), f (runCB s cb d) = f s) :
    ∀ (l : List CB) (s : Sys),
      f (l.foldl (fun acc cb => runCB acc cb d) s) = f s := by
  intro l
  induction l with
  | nil => intro s; rfl
  | cons cb t ih => intro s; rw [List.foldl_cons, ih, hf]

theorem foldl_runCB_invoked (d : JSData) :
    ∀ (l : List CB) (s : Sys),
      (l.foldl (fun acc cb => runCB acc cb d) s).invoked
        = s.invoked ++ l.map (fun cb => (cb, d)) := by
  intro l
  induction l with
  | nil => intro s; simp
  | cons cb t ih => intro s; rw [List.foldl_cons, ih, runCB_invoked]; simp

theorem foldl_runCB_destroyP_rejected (d : JSData) (e : JsError) :
    ∀ (l : List CB) (s : Sys), s.destroyP = .rejected e →
      (l.foldl (fun acc cb => runCB acc cb d) s).destroyP = .rejected e := by
  intro l
  induction l with
  | nil => intro s h; exact h
  | cons cb t ih =>
      intro s h
      rw [List.foldl_cons]
      exact ih _ (runCB_destroyP_rejected s cb d e h)

theorem foldl_runCB_destroyP_nr (d : JSData) :
    ∀ (l : List CB) (s : Sys),
      (s.destroyP = .pending ∨ s.destroyP = .resolved) →
      ((l.foldl (fun acc cb => runCB acc cb d) s).destroyP = .pending ∨
       (l.foldl (fun acc cb => runCB acc cb d) s).destroyP = .resolved) := by
  intro l
  induction l with
  | nil => intro s h; exact h
  | cons cb t ih =>
      intro s h
      rw [List.foldl_cons]
      exact ih _ (runCB_destroyP_nr s cb d h)

theorem foldl_onDestroy_resolves (d : JSData) (l : List CB) (s : Sys)
    (h : s.destroyP = .pending ∨ s.destroyP = .resolved) :
    ((l ++ [CB.onDestroy]).foldl (fun acc cb => runCB acc cb d) s).destroyP
      = .resolved := by
  rw [List.foldl_append]
  have h1 := foldl_runCB_destroyP_nr d l s h
  set t := List.foldl (fun acc cb => runCB acc cb d) s l with ht
  show (List.foldl (fun acc cb => runCB acc cb d) t [CB.onDestroy]).destroyP
    = .resolved
  simp only [List.foldl_cons, List.foldl_nil]
  rcases h1 with h1 | h1 <;> simp [runCB, h1, PromiseSt.resolve]

theorem doDestroy_attached (s : Sys) (hA : s.conn.iframeAttached = true) :
    (doDestroy s).2 = none ∧
    (doDestroy s).1.conn.state = CState.destroyed ∧
    (doDestroy s).1.conn.callbacks = Callbacks.empty ∧
    (doDestroy s).1.conn.iframeAttached = false ∧
    (doDestroy s).1.conn.listenerAttached = false ∧
    (doDestroy s).1.doDestroyRuns = s.doDestroyRuns + 1 := by
  simp only [doDestroy, hA, if_true]
  refine ⟨trivial, ?_, trivial, ?_, ?_, ?_⟩
  · exact foldl_runCB_preserve (fun u => u.conn.state) .undefV
      (fun u cb => runCB_state u cb .undefV) _ _
  · exact foldl_runCB_preserve (fun u => u.conn.iframeAttached) .undefV
      (fun u cb => runCB_iframe u cb .undefV) _ _
  · exact foldl_runCB_preserve (fun u => u.conn.listenerAttached) .undefV
      (fun u cb => runCB_listenerAtt u cb .undefV) _ _
  · have := foldl_runCB_preserve (fun u => u.doDestroyRuns) .undefV
      (fun u cb => runCB_runs u cb .undefV)
    simp only [this]

theorem doDestroy_destroyP_rejected (s : Sys) (e : JsError)
    (hA : s.conn.iframeAttached = true) (h : s.destroyP = .rejected e) :
    (doDestroy s).1.destroyP = .rejected e := by
  simp only [doDestroy, hA, if_true]
  exact foldl_runCB_destroyP_rejected .undefV e _ _ h

theorem doDestroy_destroyP_resolved (s : Sys) (l : List CB)
    (hA : s.conn.iframeAttached = true)
    (hsnap : s.conn.callbacks.destroyed = l ++ [CB.onDestroy])
    (h : s.destroyP = .pending ∨ s.destroyP = .resolved) :
    (doDestroy s).1.destroyP = .resolved := by
  simp only [doDestroy, hA, if_true]
  rw [hsnap]
  exact foldl_onDestroy_resolves .undefV l _ h

theorem listener_destroyed_msg (s : Sys) :
    postMessageListener s destroyedAckEvent
      = doDestroy { s with conn := { s.conn with state := .destroyed } } := rfl


theorem destroyCatch_ok (s : Sys) (h : (doDestroy s).2 = none) :
    destroyCatch s = (doDestroy s).1 := by
  unfold destroyCatch
  rcases hDD : doDestroy s with ⟨s1, e1⟩
  rw [hDD] at h
  cases e1 with
  | none => rfl
  | some e => simp at h

/-- C2: for every connection with a live iframe (attached, with the
window message listener registered), `destroy` ends with state
`destroyed`, the registry cleared, the iframe detached and the listener
removed, on both paths: when the embedded app acknowledges with a
`destroyed` message the promise resolves, and when no acknowledgment
arrives within the 10-second window the promise rejects with
`DestroyTimeout`; in both cases the local teardown `_doDestroy` runs
exactly once and raises nothing. -/
theorem c2_destroy_converges (c : Conn)
    (hI : c.iframeAttached = true) (hL : c.listenerAttached = true) :
    ((destroyAckScenario c).conn.state = .destroyed ∧
     (destroyAckScenario c).conn.callbacks = Callbacks.empty ∧
     (destroyAckScenario c).conn.iframeAttached = false ∧
     (destroyAckScenario c).conn.listenerAttached = false ∧
     (destroyAckScenario c).doDestroyRuns = 1 ∧
     (destroyAckScenario c).destroyP = .resolved ∧
     (destroyAckRun c).2 = none) ∧
    ((destroyTimeoutScenario c).conn.state = .destroyed ∧
     (destroyTimeoutScenario c).conn.callbacks = Callbacks.empty ∧
     (destroyTimeoutScenario c).conn.iframeAttached = false ∧
     (destroyTimeoutScenario c).conn.listenerAttached = false ∧
     (destroyTimeoutScenario c).doDestroyRuns = 1 ∧
     (destroyTimeoutScenario c).destroyP
        = .rejected .destroyTimeout) := by
  have h1 : destroyStart (initSys c) = { initSys c with
      conn := { c with callbacks := c.callbacks.add .destroyed .onDestroy },
      outbox := ["close"] } := by
    simp [destroyStart, initSys, hI]
  constructor
  · -- the acknowledgment path
    have hAck : destroyAckRun c = doDestroy { initSys c with
        conn := { c with
          callbacks := c.callbacks.add .destroyed .onDestroy,
          state := .destroyed },
        outbox := ["close"] } := by
      unfold destroyAckRun
      rw [h1]
      unfold deliverMessage
      simp only [hL, if_true]
      exact listener_destroyed_msg _
    have hA2 : ({ initSys c with
        conn := { c with
          callbacks := c.callbacks.add .destroyed .onDestroy,
          state := .destroyed },
        outbox := ["close"] } : Sys).conn.iframeAttached = true := hI
    have hsnap : ({ initSys c with
        conn := { c with
          callbacks := c.callbacks.add .destroyed .onDestroy,
          state := .destroyed },
        outbox := ["close"] } : Sys).conn.callbacks.destroyed
          = c.callbacks.destroyed ++ [CB.onDestroy] := by
      simp [Callbacks.add]
    obtain ⟨he, hst, hcb, hif, hls, hrn⟩ := doDestroy_attached _ hA2
    have hdp := doDestroy_destroyP_resolved _ _ hA2 hsnap (Or.inl rfl)
    have hdp1 : (destroyAckRun c).1.destroyP = .resolved := by
      rw [hAck]; exact hdp
    have hFin : destroyAckScenario c = (destroyAckRun c).1 := by
      unfold destroyAckScenario fireDestroyTimer
      simp [hdp1]
    refine ⟨?_, ?_, ?_, ?_, ?_, ?_, ?_⟩
    · rw [hFin, hAck]; exact hst
    · rw [hFin, hAck]; exact hcb
    · rw [hFin, hAck]; exact hif
    · rw [hFin, hAck]; exact hls
    · rw [hFin, hAck]; exact hrn
    · rw [hFin]; exact hdp1
    · rw [hAck]; exact he
  · -- the timeout path
    have hT : destroyTimeoutScenario c = destroyCatch { initSys c with
        conn := { c with callbacks := c.callbacks.add .destroyed .onDestroy },
        outbox := ["close"],
        destroyP := .rejected .destroyTimeout } := by
      unfold destroyTimeoutScenario fireDestroyTimer
      rw [h1]
      simp [initSys]
    have hA2 : ({ initSys c with
        conn := { c with callbacks := c.callbacks.add .destroyed .onDestroy },
        outbox := ["close"],
        destroyP := .rejected .destroyTimeout } : Sys).conn.iframeAttached
          = true := hI
    obtain ⟨he, hst, hcb, hif, hls, hrn⟩ := doDestroy_attached _ hA2
    have hdp := doDestroy_destroyP_rejected _ .destroyTimeout hA2 rfl
    rw [hT, destroyCatch_ok _ he]
    exact ⟨hst, hcb, hif, hls, hrn, hdp⟩

theorem c2_destroy_converges_witness :
    (destroyAckScenario connReady).conn.state = .destroyed ∧
    (destroyAckScenario connReady).destroyP = .resolved ∧
    (destroyTimeoutScenario connReady).destroyP
      = .rejected .destroyTimeout :=
  ⟨(c2_destroy_converges connReady rfl rfl).1.1,
   (c2_destroy_converges connReady rfl rfl).1.2.2.2.2.2.1,
   (c2_destroy_converges connReady rfl rfl).2.2.2.2.2.2⟩

theorem doDestroy_detached (s : Sys) (h : s.conn.iframeAttached = false) :
    doDestroy s
      = ({ s with conn := { s.conn with listenerAttached := false } },
         some .domNotFound) := by
  simp [doDestroy, h]

/-- C3 (amended): performing teardown on a connection whose iframe is
still attached succeeds (never raises) and yields the terminal local
state — `destroyed`, registry cleared, iframe detached, listener removed
— but the teardown is not idempotent: invoking it again, once the iframe
has been detached, raises the DOM `NotFoundError` that `removeChild`
throws for a non-child node. -/
theorem c3_teardown_not_idempotent (s : Sys) :
    (s.conn.iframeAttached = true →
      (doDestroy s).2 = none ∧
      (doDestroy s).1.conn.state = .destroyed ∧
      (doDestroy s).1.conn.callbacks = Callbacks.empty ∧
      (doDestroy s).1.conn.iframeAttached = false ∧
      (doDestroy s).1.conn.listenerAttached = false ∧
      (doDestroy (doDestroy s).1).2 = some .domNotFound) ∧
    (s.conn.iframeAttached = false →
      (doDestroy s).2 = some .domNotFound) := by
  constructor
  · intro hA
    obtain ⟨he, hst, hcb, hif, hls, _⟩ := doDestroy_attached s hA
    refine ⟨he, hst, hcb, hif, hls, ?_⟩
    rw [doDestroy_detached _ hif]
  · intro hN
    rw [doDestroy_detached _ hN]

/-- C3 counterexample: on a live connection the first teardown returns
normally, and a second teardown — the iframe now being detached — raises
`domNotFound` instead of being a safe no-op, refuting the claim that
invoking teardown on an already-detached connection does not raise. -/
theorem c3_counterexample_second_teardown_raises :
    (doDestroy (initSys connReady)).2 = none ∧
    (doDestroy (doDestroy (initSys connReady)).1).2
      = some .domNotFound := by
  constructor <;> rfl

theorem c3_teardown_not_idempotent_witness :
    (doDestroy (initSys connCompleted)).2 = none ∧
    (doDestroy { initSys connCompleted with
        conn := { connCompleted with iframeAttached := false } }).2
      = some .domNotFound :=
  ⟨((c3_teardown_not_idempotent (initSys connCompleted)).1 rfl).1,
   (c3_teardown_not_idempotent _).2 rfl⟩

theorem listener_unrecognized (s : Sys) (e : MessageEvent)
    (h1 : e.data.typeOf ≠ some "ready")
    (h2 : e.data.typeOf ≠ some "completed")
    (h3 : e.data.typeOf ≠ some "destroyed") :
    postMessageListener s e = (s, none) := by
  unfold postMessageListener
  split <;> simp_all

/-- C9: the message listener is total over arbitrary message data: for
every event whose data is `null`, `undefined`, a non-object, or an object
whose `type` is not one of `ready`, `completed`, `destroyed`, the
listener returns normally (no exception), leaves the whole system state
— connection state, registry, invocation trace — unchanged, and invokes
no callback. -/
theorem c9_listener_total_on_unrecognized (s : Sys) (e : MessageEvent)
    (h1 : e.data.typeOf ≠ some "ready")
    (h2 : e.data.typeOf ≠ some "completed")
    (h3 : e.data.typeOf ≠ some "destroyed") :
    postMessageListener s e = (s, none) :=
  listener_unrecognized s e h1 h2 h3

theorem c9_listener_total_on_unrecognized_witness :
    postMessageListener (initSys connReady) nullDataEvent
      = (initSys connReady, none) :=
  c9_listener_total_on_unrecognized _ _ (by decide) (by decide) (by decide)

/-- C4 (code bug): an inbound `logout` message is entirely ignored by the
listener — the recognized-type list of `postMessageListener` is only
`ready`, `completed`, `destroyed` — so no `logout` subscriber is ever
invoked and the state is unchanged, contradicting the specified dispatch
of `logout` subscribers with the `userId` payload.  (The state-preserving
half of the claim does hold, vacuously strongly: nothing at all
happens.) -/
theorem c4_logout_message_ignored (s : Sys) (e : MessageEvent)
    (h : e.data.typeOf = some "logout") :
    postMessageListener s e = (s, none) :=
  listener_unrecognized s e (by simp [h]) (by simp [h]) (by simp [h])

theorem c4_logout_message_ignored_witness :
    postMessageListener (initSys connCompleted) logoutEvent
      = (initSys connCompleted, none) :=
  c4_logout_message_ignored _ _ rfl

/-- C10: the listener reads only `event.data` — it checks neither origin
nor source window — so two message events with identical data produce
identical results; in particular a `destroyed`-typed message from any
window triggers full teardown of a live connection: iframe detached,
listener removed, registry cleared, state `destroyed`, no exception. -/
theorem c10_listener_ignores_origin (s : Sys) (e1 e2 : MessageEvent)
    (hdata : e1.data = e2.data) :
    postMessageListener s e1 = postMessageListener s e2 ∧
    (e1.data.typeOf = some "destroyed" → s.conn.iframeAttached = true →
      (postMessageListener s e1).2 = none ∧
      (postMessageListener s e1).1.conn.state = .destroyed ∧
      (postMessageListener s e1).1.conn.iframeAttached = false ∧
      (postMessageListener s e1).1.conn.listenerAttached = false ∧
      (postMessageListener s e1).1.conn.callbacks = Callbacks.empty) := by
  constructor
  · unfold postMessageListener
    rw [hdata]
  · intro ht hA
    have hred : postMessageListener s e1
        = doDestroy { s with conn := { s.conn with state := .destroyed } } := by
      unfold postMessageListener
      rw [ht]
      rfl
    obtain ⟨he, hst, hcb, hif, hls, _⟩ :=
      doDestroy_attached { s with conn := { s.conn with state := .destroyed } } hA
    rw [hred]
    exact ⟨he, hst, hif, hls, hcb⟩

theorem c10_listener_ignores_origin_witness :
    postMessageListener (initSys connReady) destroyedSpoofEvent
      = postMessageListener (initSys connReady) destroyedAckEvent ∧
    (postMessageListener (initSys connReady) destroyedSpoofEvent).1.conn.iframeAttached
      = false :=
  ⟨(c10_listener_ignores_origin (initSys connReady) destroyedSpoofEvent
      destroyedAckEvent rfl).1,
   ((c10_listener_ignores_origin (initSys connReady) destroyedSpoofEvent
      destroyedAckEvent rfl).2 rfl rfl).2.2.1⟩

/-- C8: for every event kind and callback, `addEventListener` followed by
`removeEventListener` leaves zero occurrences of that callback under that
kind; adding the same callback instance twice and removing once removes
both occurrences; callbacks are stored at the end of the array for their
kind (registration order) and the dispatch loop invokes the stored
callbacks in exactly that order, as witnessed by the invocation trace. -/
theorem c8_registry_algebra (cbs : Callbacks) (k : EvKind) (h : CB) :
    (((cbs.add k h).remove k h).get k).count h = 0 ∧
    ((((cbs.add k h).add k h).remove k h).get k).count h = 0 ∧
    (cbs.add k h).get k = cbs.get k ++ [h] ∧
    (∀ (s : Sys) (d : JSData),
      (dispatch s k d).invoked
        = s.invoked ++ (s.conn.callbacks.get k).map (fun cb => (cb, d))) := by
  refine ⟨?_, ?_, ?_, ?_⟩
  · cases k <;>
      simp [Callbacks.add, Callbacks.remove, Callbacks.get,
        List.count_eq_zero, List.mem_filter]
  · cases k <;>
      simp [Callbacks.add, Callbacks.remove, Callbacks.get,
        List.count_eq_zero, List.mem_filter]
  · cases k <;> simp [Callbacks.add, Callbacks.get]
  · intro s d
    exact foldl_runCB_invoked d _ s

/-- C5 counterexample: the parameter `userId` bound to the empty string
is defined (not `undefined`) and is not `false`, yet `buildUrl` omits it
entirely — the serialization tests JavaScript truthiness, not
definedness, and the empty string is falsy — refuting the claim that
every defined, non-false parameter is serialized. -/
theorem c5_counterexample_empty_string_omitted :
    JVal.str "" ≠ JVal.undefVal ∧
    JVal.str "" ≠ JVal.bool false ∧
    serializeEntry ("userId", JVal.str "") = none ∧
    buildUrl "develop" [("userId", JVal.str "")]
      = .ok "https://develop.cantoo.fr/api/embed?" := by
  refine ⟨by decide, by decide, rfl, rfl⟩

/-- C5 (amended): for every configuration with a valid environment,
`buildUrl` serializes exactly the defined, non-false, non-empty-string
parameters: boolean `true` as a bare flag, a nonempty string as
`key=value`; `undefined`, `false` and empty-string values are omitted,
and the output contains no other query entries — stated as equality with
the entry list computed by the spec-side rule `specSerializeEntry`. -/
theorem c5_buildUrl_refines_spec (env : String) (props : List (String × JVal))
    (host : String) (hEnv : hosts.lookup env = some host) :
    buildUrl env props
      = .ok (host ++ "/api/embed?" ++
          String.intercalate "&" (props.filterMap specSerializeEntry)) := by
  have hse : ∀ kv : String × JVal, serializeEntry kv = specSerializeEntry kv := by
    rintro ⟨key, v⟩
    rcases v with s | b | _
    · by_cases hs : s = "" <;>
        simp [serializeEntry, specSerializeEntry, JVal.truthy,
          JVal.toStr, String.isEmpty_iff, hs]
    · cases b <;> simp [serializeEntry, specSerializeEntry, JVal.truthy]
    · simp [serializeEntry, specSerializeEntry, JVal.truthy]
  have hfun : serializeEntry = specSerializeEntry := funext hse
  unfold buildUrl
  rw [hEnv, hfun]

theorem c5_buildUrl_refines_spec_witness :
    buildUrl "develop"
        [("userId", JVal.str "10"), ("readOnly", JVal.bool true),
         ("fileId", JVal.undefVal), ("title", JVal.str "")]
      = .ok ("https://develop.cantoo.fr" ++ "/api/embed?" ++
          String.intercalate "&"
            ([("userId", JVal.str "10"), ("readOnly", JVal.bool true),
              ("fileId", JVal.undefVal), ("title", JVal.str "")].filterMap
              specSerializeEntry)) :=
  c5_buildUrl_refines_spec "develop" _ "https://develop.cantoo.fr" rfl

theorem destroy_handshake_from_live (s : Sys)
    (hA : s.conn.iframeAttached = true) (hL : s.conn.listenerAttached = true)
    (hP : s.destroyP = .pending) :
    ((deliverMessage (destroyStart s) destroyedAckEvent).2 = none ∧
     (fireDestroyTimer
        (deliverMessage (destroyStart s) destroyedAckEvent).1).conn.state
          = .destroyed ∧
     (fireDestroyTimer
        (deliverMessage (destroyStart s) destroyedAckEvent).1).conn.callbacks
          = Callbacks.empty ∧
     (fireDestroyTimer
        (deliverMessage (destroyStart s) destroyedAckEvent).1).conn.iframeAttached
          = false ∧
     (fireDestroyTimer
        (deliverMessage (destroyStart s) destroyedAckEvent).1).conn.listenerAttached
          = false ∧
     (fireDestroyTimer
        (deliverMessage (destroyStart s) destroyedAckEvent).1).doDestroyRuns
          = s.doDestroyRuns + 1 ∧
     (fireDestroyTimer
        (deliverMessage (destroyStart s) destroyedAckEvent).1).destroyP
          = .resolved) ∧
    ((fireDestroyTimer (destroyStart s)).conn.state = .destroyed ∧
     (fireDestroyTimer (destroyStart s)).conn.callbacks = Callbacks.empty ∧
     (fireDestroyTimer (destroyStart s)).conn.iframeAttached = false ∧
     (fireDestroyTimer (destroyStart s)).conn.listenerAttached = false ∧
     (fireDestroyTimer (destroyStart s)).doDestroyRuns = s.doDestroyRuns + 1 ∧
     (fireDestroyTimer (destroyStart s)).destroyP
        = .rejected .destroyTimeout) := by
  have h1 : destroyStart s = { s with
      conn := { s.conn with
        callbacks := s.conn.callbacks.add .destroyed .onDestroy },
      outbox := s.outbox ++ ["close"] } := by
    simp [destroyStart, hA]
  constructor
  · -- the acknowledgment path
    have hAck : deliverMessage (destroyStart s) destroyedAckEvent
        = doDestroy { s with
            conn := { s.conn with
              callbacks := s.conn.callbacks.add .destroyed .onDestroy,
              state := .destroyed },
            outbox := s.outbox ++ ["close"] } := by
      rw [h1]
      unfold deliverMessage
      simp only [hL, if_true]
      exact listener_destroyed_msg _
    have hA2 : ({ s with
        conn := { s.conn with
          callbacks := s.conn.callbacks.add .destroyed .onDestroy,
          state := .destroyed },
        outbox := s.outbox ++ ["close"] } : Sys).conn.iframeAttached = true := hA
    have hsnap : ({ s with
        conn := { s.conn with
          callbacks := s.conn.callbacks.add .destroyed .onDestroy,
          state := .destroyed },
        outbox := s.outbox ++ ["close"] } : Sys).conn.callbacks.destroyed
          = s.conn.callbacks.destroyed ++ [CB.onDestroy] := by
      simp [Callbacks.add]
    obtain ⟨he, hst, hcb, hif, hls, hrn⟩ := doDestroy_attached _ hA2
    have hdp := doDestroy_destroyP_resolved _ _ hA2 hsnap (Or.inl hP)
    have hdp1 : (deliverMessage (destroyStart s) destroyedAckEvent).1.destroyP
        = .resolved := by
      rw [hAck]; exact hdp
    have hFin : fireDestroyTimer
        (deliverMessage (destroyStart s) destroyedAckEvent).1
          = (deliverMessage (destroyStart s) destroyedAckEvent).1 := by
      unfold fireDestroyTimer
      simp [hdp1]
    refine ⟨?_, ?_, ?_, ?_, ?_, ?_, ?_⟩
    · rw [hAck]; exact he
    · rw [hFin, hAck]; exact hst
    · rw [hFin, hAck]; exact hcb
    · rw [hFin, hAck]; exact hif
    · rw [hFin, hAck]; exact hls
    · rw [hFin, hAck]; exact hrn
    · rw [hFin]; exact hdp1
  · -- the timeout path
    have hT : fireDestroyTimer (destroyStart s) = destroyCatch { s with
        conn := { s.conn with
          callbacks := s.conn.callbacks.add .destroyed .onDestroy },
        outbox := s.outbox ++ ["close"],
        destroyP := .rejected .destroyTimeout } := by
      unfold fireDestroyTimer
      rw [h1]
      simp [hP]
    have hA2 : ({ s with
        conn := { s.conn with
          callbacks := s.conn.callbacks.add .destroyed .onDestroy },
        outbox := s.outbox ++ ["close"],
        destroyP := .rejected .destroyTimeout } : Sys).conn.iframeAttached
          = true := hA
    obtain ⟨he, hst, hcb, hif, hls, hrn⟩ := doDestroy_attached _ hA2
    have hdp := doDestroy_destroyP_rejected _ .destroyTimeout hA2 rfl
    rw [hT, destroyCatch_ok _ he]
    exact ⟨hst, hcb, hif, hls, hrn, hdp⟩

/-- C6 counterexample: for the scenario configuration the source places
the bare `readOnly` flag right after `idEnt` (the insertion order of the
object literal in `_buildUrl`), so the iframe src differs from the exact
string the claim states, which puts `readOnly` last. -/
theorem c6_counterexample_src_order :
    ((connectStart cfgC6).map (fun s => s.conn.iframeSrc))
      = .ok actualC6Url ∧
    actualC6Url ≠ claimedC6Url := by
  exact ⟨rfl, by decide⟩

/-- C6 (amended): for the scenario configuration, `connect` sets the
iframe src to the string with `readOnly` serialized second (after
`idEnt`), and on receipt of `{type:"ready", userId:"10", fileId:"10"}`
the listener raises nothing, the promise returned by `connect` resolves,
the connection state equals `ready`, and the `fileId` field is taken
from the event. -/
theorem c6_connect_scenario_actual :
    ((connectStart cfgC6).map (fun s =>
      (s.conn.iframeSrc, s.conn.state,
       (deliverMessage s readyEventC6).2,
       (deliverMessage s readyEventC6).1.connectP,
       (deliverMessage s readyEventC6).1.conn.state,
       (deliverMessage s readyEventC6).1.conn.fileId)))
    = .ok (actualC6Url, .launching, none, .resolved, .ready, some "10") := by
  rfl

/-- C1 counterexample: at the instant the `ConnectTimeout` rejection of
`connect` propagates to the caller (the rejection handler has called
`destroy()` without awaiting it), the iframe is still attached to its
container and the window message listener is still registered, refuting
the claim that the connection is destroyed, the iframe detached and the
listener removed before the rejection propagates. -/
theorem c1_counterexample_teardown_after_rejection :
    (connectTimeoutRun cfgC6).map (fun s =>
        (s.connectP, s.conn.iframeAttached, s.conn.listenerAttached))
      = .ok (.rejected .connectTimeout, true, true) := by
  rfl

/-- C1 (amended): for every configuration with a valid environment, when
no `ready` message arrives within the 5-minute window the promise
returned by `connect` rejects with `ConnectTimeout` and destruction is
initiated (the `close` request is posted), but at the instant the
rejection propagates the iframe is still attached and the listener still
registered; the teardown completes — iframe detached, listener removed,
registry cleared, state `destroyed`, `_doDestroy` run exactly once —
only afterwards, when the embedded app acknowledges the close or when
the 10-second destroy timer fires. -/
theorem c1_connect_timeout_rejects_then_destroys (cfg : Config)
    (host : String) (hEnv : hosts.lookup cfg.env = some host) :
    connectTimeoutMs = 5 * 60000 ∧
    ∃ s : Sys, connectTimeoutRun cfg = .ok s ∧
      s.connectP = .rejected .connectTimeout ∧
      s.conn.iframeAttached = true ∧
      s.conn.listenerAttached = true ∧
      s.outbox = ["close"] ∧
      ((fireDestroyTimer (deliverMessage s destroyedAckEvent).1).conn.state
          = .destroyed ∧
       (fireDestroyTimer (deliverMessage s destroyedAckEvent).1).conn.iframeAttached
          = false ∧
       (fireDestroyTimer (deliverMessage s destroyedAckEvent).1).conn.listenerAttached
          = false ∧
       (fireDestroyTimer (deliverMessage s destroyedAckEvent).1).conn.callbacks
          = Callbacks.empty ∧
       (fireDestroyTimer (deliverMessage s destroyedAckEvent).1).doDestroyRuns
          = 1 ∧
       (fireDestroyTimer (deliverMessage s destroyedAckEvent).1).destroyP
          = .resolved) ∧
      ((fireDestroyTimer s).conn.state = .destroyed ∧
       (fireDestroyTimer s).conn.iframeAttached = false ∧
       (fireDestroyTimer s).conn.listenerAttached = false ∧
       (fireDestroyTimer s).conn.callbacks = Callbacks.empty ∧
       (fireDestroyTimer s).doDestroyRuns = 1 ∧
       (fireDestroyTimer s).destroyP = .rejected .destroyTimeout) := by
  refine ⟨rfl, ?_⟩
  have hnew : connectStart cfg = .ok {
      conn := {
        state := .launching
        callbacks := ⟨[CB.connectReady], [], [], []⟩
        env := cfg.env
        idEnt := cfg.idEnt
        uai := cfg.uai
        userId := cfg.userId
        readOnly := cfg.readOnly
        fileId := cfg.fileId
        title := cfg.title
        template := cfg.template
        iframeSrc := host ++ "/api/embed?" ++ String.intercalate "&"
          ([("idEnt", JVal.str cfg.idEnt),
            ("readOnly", JVal.bool cfg.readOnly),
            ("uai", JVal.str cfg.uai),
            ("userId", JVal.str cfg.userId),
            ("fileId", jv cfg.fileId),
            ("title", jv cfg.title),
            ("template", jv cfg.template)].filterMap serializeEntry)
        iframeAttached := true
        listenerAttached := true }
      connectP := .pending
      loadP := .pending
      destroyP := .pending
      doDestroyRuns := 0
      invoked := []
      outbox := [] } := by
    simp [connectStart, newCantooAPI, Conn.buildUrlOf, buildUrl, hEnv,
      initSys, Callbacks.add, Callbacks.empty]
  have hrun : connectTimeoutRun cfg = .ok (destroyStart {
      conn := {
        state := .launching
        callbacks := ⟨[CB.connectReady], [], [], []⟩
        env := cfg.env
        idEnt := cfg.idEnt
        uai := cfg.uai
        userId := cfg.userId
        readOnly := cfg.readOnly
        fileId := cfg.fileId
        title := cfg.title
        template := cfg.template
        iframeSrc := host ++ "/api/embed?" ++ String.intercalate "&"
          ([("idEnt", JVal.str cfg.idEnt),
            ("readOnly", JVal.bool cfg.readOnly),
            ("uai", JVal.str cfg.uai),
            ("userId", JVal.str cfg.userId),
            ("fileId", jv cfg.fileId),
            ("title", jv cfg.title),
            ("template", jv cfg.template)].filterMap serializeEntry)
        iframeAttached := true
        listenerAttached := true }
      connectP := .rejected .connectTimeout
      loadP := .pending
      destroyP := .pending
      doDestroyRuns := 0
      invoked := []
      outbox := [] }) := by
    unfold connectTimeoutRun
    rw [hnew]
    rfl
  obtain ⟨hack, hto⟩ := destroy_handshake_from_live {
      conn := {
        state := .launching
        callbacks := ⟨[CB.connectReady], [], [], []⟩
        env := cfg.env
        idEnt := cfg.idEnt
        uai := cfg.uai
        userId := cfg.userId
        readOnly := cfg.readOnly
        fileId := cfg.fileId
        title := cfg.title
        template := cfg.template
        iframeSrc := host ++ "/api/embed?" ++ String.intercalate "&"
          ([("idEnt", JVal.str cfg.idEnt),
            ("readOnly", JVal.bool cfg.readOnly),
            ("uai", JVal.str cfg.uai),
            ("userId", JVal.str cfg.userId),
            ("fileId", jv cfg.fileId),
            ("title", jv cfg.title),
            ("template", jv cfg.template)].filterMap serializeEntry)
        iframeAttached := true
        listenerAttached := true }
      connectP := .rejected .connectTimeout
      loadP := .pending
      destroyP := .pending
      doDestroyRuns := 0
      invoked := []
      outbox := [] } rfl rfl rfl
  refine ⟨_, hrun, rfl, rfl, rfl, rfl, ?_, ?_⟩
  · exact ⟨hack.2.1, hack.2.2.2.1, hack.2.2.2.2.1, hack.2.2.1,
      hack.2.2.2.2.2.1, hack.2.2.2.2.2.2⟩
  · exact ⟨hto.1, hto.2.2.1, hto.2.2.2.1, hto.2.1, hto.2.2.2.2.1,
      hto.2.2.2.2.2⟩

theorem c1_connect_timeout_rejects_then_destroys_witness :
    connectTimeoutMs = 5 * 60000 ∧
    ∃ s : Sys, connectTimeoutRun cfgC6 = .ok s ∧
      s.connectP = .rejected .connectTimeout :=
  ⟨(c1_connect_timeout_rejects_then_destroys cfgC6
      "https://develop.cantoo.fr" rfl).1,
   match (c1_connect_timeout_rejects_then_destroys cfgC6
      "https://develop.cantoo.fr" rfl).2 with
   | ⟨s, h1, h2, _⟩ => ⟨s, h1, h2⟩⟩

/-- C7 counterexample: a connection in state `ready` issues
`loadDocument("99", true)`; when the 60-second timer fires the promise
rejects with `LoadTimeout`, but at the instant the rejection propagates
the state is still `ready` (not `destroyed`) and the iframe is still
attached — `destroy()` was initiated, not awaited — refuting the claim
that after the failure the state equals `destroyed` and the resources
have been released. -/
theorem c7_counterexample_state_after_rejection :
    (loadDocumentStart (initSys connReady) "99" (some true)).map (fun s =>
        ((fireLoadTimer s).loadP, (fireLoadTimer s).conn.state,
         (fireLoadTimer s).conn.iframeAttached,
         (fireLoadTimer s).conn.listenerAttached))
      = .ok (.rejected .loadTimeout, .ready, true, true) := by
  rfl

/-- C7 (amended): for every live connection with a valid environment, if
`loadDocument(fileId, readOnly)` is issued and no `ready` arrives within
the 60-second window, the returned promise rejects with `LoadTimeout`
and destruction is initiated, but at the instant the rejection
propagates the state is unchanged and the iframe still attached; the
connection reaches `destroyed` with iframe, listener and registry
released only afterwards, when the embedded app acknowledges the close
or when the 10-second destroy timer fires. -/
theorem c7_load_timeout_rejects_then_destroys (c : Conn) (fid : String)
    (ro : Option Bool) (host : String)
    (hEnv : hosts.lookup c.env = some host)
    (hI : c.iframeAttached = true) (hL : c.listenerAttached = true) :
    loadTimeoutMs = 60000 ∧
    ∃ s : Sys, loadDocumentStart (initSys c) fid ro = .ok s ∧
      (fireLoadTimer s).loadP = .rejected .loadTimeout ∧
      (fireLoadTimer s).conn.state = c.state ∧
      (fireLoadTimer s).conn.iframeAttached = true ∧
      (fireLoadTimer s).conn.listenerAttached = true ∧
      ((fireDestroyTimer
          (deliverMessage (fireLoadTimer s) destroyedAckEvent).1).conn.state
            = .destroyed ∧
       (fireDestroyTimer
          (deliverMessage (fireLoadTimer s) destroyedAckEvent).1).conn.iframeAttached
            = false ∧
       (fireDestroyTimer
          (deliverMessage (fireLoadTimer s) destroyedAckEvent).1).conn.listenerAttached
            = false ∧
       (fireDestroyTimer
          (deliverMessage (fireLoadTimer s) destroyedAckEvent).1).conn.callbacks
            = Callbacks.empty ∧
       (fireDestroyTimer
          (deliverMessage (fireLoadTimer s) destroyedAckEvent).1).doDestroyRuns
            = 1 ∧
       (fireDestroyTimer
          (deliverMessage (fireLoadTimer s) destroyedAckEvent).1).destroyP
            = .resolved) ∧
      ((fireDestroyTimer (fireLoadTimer s)).conn.state = .destroyed ∧
       (fireDestroyTimer (fireLoadTimer s)).conn.iframeAttached = false ∧
       (fireDestroyTimer (fireLoadTimer s)).conn.listenerAttached = false ∧
       (fireDestroyTimer (fireLoadTimer s)).conn.callbacks = Callbacks.empty ∧
       (fireDestroyTimer (fireLoadTimer s)).doDestroyRuns = 1 ∧
       (fireDestroyTimer (fireLoadTimer s)).destroyP
          = .rejected .destroyTimeout) := by
  refine ⟨rfl, ?_⟩
  have hload : loadDocumentStart (initSys c) fid ro = .ok {
      conn := {
        state := c.state
        callbacks := c.callbacks.add .ready .loadReady
        env := c.env
        idEnt := c.idEnt
        uai := c.uai
        userId := c.userId
        readOnly := ro.getD false
        fileId := some fid
        title := none
        template := none
        iframeSrc := host ++ "/api/embed?" ++ String.intercalate "&"
          ([("idEnt", JVal.str c.idEnt),
            ("readOnly", JVal.bool (ro.getD false)),
            ("uai", JVal.str c.uai),
            ("userId", JVal.str c.userId),
            ("fileId", JVal.str fid),
            ("title", JVal.undefVal),
            ("template", JVal.undefVal)].filterMap serializeEntry)
        iframeAttached := c.iframeAttached
        listenerAttached := c.listenerAttached }
      connectP := .pending
      loadP := .pending
      destroyP := .pending
      doDestroyRuns := 0
      invoked := []
      outbox := [] } := by
    simp [loadDocumentStart, Conn.buildUrlOf, buildUrl, hEnv, initSys, jv]
  have hflt : fireLoadTimer {
      conn := {
        state := c.state
        callbacks := c.callbacks.add .ready .loadReady
        env := c.env
        idEnt := c.idEnt
        uai := c.uai
        userId := c.userId
        readOnly := ro.getD false
        fileId := some fid
        title := none
        template := none
        iframeSrc := host ++ "/api/embed?" ++ String.intercalate "&"
          ([("idEnt", JVal.str c.idEnt),
            ("readOnly", JVal.bool (ro.getD false)),
            ("uai", JVal.str c.uai),
            ("userId", JVal.str c.userId),
            ("fileId", JVal.str fid),
            ("title", JVal.undefVal),
            ("template", JVal.undefVal)].filterMap serializeEntry)
        iframeAttached := c.iframeAttached
        listenerAttached := c.listenerAttached }
      connectP := .pending
      loadP := .pending
      destroyP := .pending
      doDestroyRuns := 0
      invoked := []
      outbox := [] } = destroyStart {
      conn := {
        state := c.state
        callbacks := (c.callbacks.add .ready .loadReady).remove .ready .loadReady
        env := c.env
        idEnt := c.idEnt
        uai := c.uai
        userId := c.userId
        readOnly := ro.getD false
        fileId := some fid
        title := none
        template := none
        iframeSrc := host ++ "/api/embed?" ++ String.intercalate "&"
          ([("idEnt", JVal.str c.idEnt),
            ("readOnly", JVal.bool (ro.getD false)),
            ("uai", JVal.str c.uai),
            ("userId", JVal.str c.userId),
            ("fileId", JVal.str fid),
            ("title", JVal.undefVal),
            ("template", JVal.undefVal)].filterMap serializeEntry)
        iframeAttached := c.iframeAttached
        listenerAttached := c.listenerAttached }
      connectP := .pending
      loadP := .rejected .loadTimeout
      destroyP := .pending
      doDestroyRuns := 0
      invoked := []
      outbox := [] } := by
    unfold fireLoadTimer loadCatch
    rfl
  have hds : destroyStart {
      conn := {
        state := c.state
        callbacks := (c.callbacks.add .ready .loadReady).remove .ready .loadReady
        env := c.env
        idEnt := c.idEnt
        uai := c.uai
        userId := c.userId
        readOnly := ro.getD false
        fileId := some fid
        title := none
        template := none
        iframeSrc := host ++ "/api/embed?" ++ String.intercalate "&"
          ([("idEnt", JVal.str c.idEnt),
            ("readOnly", JVal.bool (ro.getD false)),
            ("uai", JVal.str c.uai),
            ("userId", JVal.str c.userId),
            ("fileId", JVal.str fid),
            ("title", JVal.undefVal),
            ("template", JVal.undefVal)].filterMap serializeEntry)
        iframeAttached := c.iframeAttached
        listenerAttached := c.listenerAttached }
      connectP := .pending
      loadP := .rejected .loadTimeout
      destroyP := .pending
      doDestroyRuns := 0
      invoked := []
      outbox := [] } = {
      conn := {
        state := c.state
        callbacks := ((c.callbacks.add .ready .loadReady).remove .ready
          .loadReady).add .destroyed .onDestroy
        env := c.env
        idEnt := c.idEnt
        uai := c.uai
        userId := c.userId
        readOnly := ro.getD false
        fileId := some fid
        title := none
        template := none
        iframeSrc := host ++ "/api/embed?" ++ String.intercalate "&"
          ([("idEnt", JVal.str c.idEnt),
            ("readOnly", JVal.bool (ro.getD false)),
            ("uai", JVal.str c.uai),
            ("userId", JVal.str c.userId),
            ("fileId", JVal.str fid),
            ("title", JVal.undefVal),
            ("template", JVal.undefVal)].filterMap serializeEntry)
        iframeAttached := c.iframeAttached
        listenerAttached := c.listenerAttached }
      connectP := .pending
      loadP := .rejected .loadTimeout
      destroyP := .pending
      doDestroyRuns := 0
      invoked := []
      outbox := ["close"] } := by
    simp [destroyStart, hI]
  obtain ⟨hack, hto⟩ := destroy_handshake_from_live {
      conn := {
        state := c.state
        callbacks := (c.callbacks.add .ready .loadReady).remove .ready .loadReady
        env := c.env
        idEnt := c.idEnt
        uai := c.uai
        userId := c.userId
        readOnly := ro.getD false
        fileId := some fid
        title := none
        template := none
        iframeSrc := host ++ "/api/embed?" ++ String.intercalate "&"
          ([("idEnt", JVal.str c.idEnt),
            ("readOnly", JVal.bool (ro.getD false)),
            ("uai", JVal.str c.uai),
            ("userId", JVal.str c.userId),
            ("fileId", JVal.str fid),
            ("title", JVal.undefVal),
            ("template", JVal.undefVal)].filterMap serializeEntry)
        iframeAttached := c.iframeAttached
        listenerAttached := c.listenerAttached }
      connectP := .pending
      loadP := .rejected .loadTimeout
      destroyP := .pending
      doDestroyRuns := 0
      invoked := []
      outbox := [] } hI hL rfl
  refine ⟨_, hload, ?_, ?_, ?_, ?_, ?_, ?_⟩
  · rw [hflt, hds]
  · rw [hflt, hds]
  · rw [hflt, hds]; exact hI
  · rw [hflt, hds]; exact hL
  · rw [hflt]
    exact ⟨hack.2.1, hack.2.2.2.1, hack.2.2.2.2.1, hack.2.2.1,
      hack.2.2.2.2.2.1, hack.2.2.2.2.2.2⟩
  · rw [hflt]
    exact ⟨hto.1, hto.2.2.1, hto.2.2.2.1, hto.2.1, hto.2.2.2.2.1,
      hto.2.2.2.2.2⟩

theorem c7_load_timeout_rejects_then_destroys_witness :
    loadTimeoutMs = 60000 ∧
    ∃ s : Sys, loadDocumentStart (initSys connReady) "99" (some true)
        = .ok s ∧
      (fireLoadTimer s).loadP = .rejected .loadTimeout :=
  ⟨(c7_load_timeout_rejects_then_destroys connReady "99" (some true)
      "https://develop.cantoo.fr" rfl rfl rfl).1,
   match (c7_load_timeout_rejects_then_destroys connReady "99" (some true)
      "https://develop.cantoo.fr" rfl rfl rfl).2 with
   | ⟨s, h1, h2, _⟩ => ⟨s, h1, h2⟩⟩
